import Mathlib

/-!
Verification of `System.Globalization.Native/pal_localeStringData.c`.

The C file is a thin shim over the ICU internationalization library.  We give a
shallow embedding: ICU calls and the repository helpers that live outside this
file are collected in an oracle structure `Model`; every function of
`pal_localeStringData.c` becomes a pure Lean function from the oracle, its
arguments and the initial output buffer to a status, the final buffer and a
trace of the external events (handle opens/closes, allocations, frees, library
queries) it performed, in order.

A `UChar` (UTF-16 code unit) is a `Nat`; a buffer (`UChar*` plus its capacity)
is a `List UChar` whose length is the capacity; a `UErrorCode` is an `Int`
(ICU: negative values are warnings, zero is `U_ZERO_ERROR`, positive values
are failures).
-/

abbrev UChar : Type := Nat

abbrev UErrorCode : Type := Int

abbrev Buffer : Type := List UChar

/-- ICU `U_ZERO_ERROR`. -/
def U_ZERO_ERROR : UErrorCode := 0

/-- ICU `U_ILLEGAL_ARGUMENT_ERROR`. -/
def U_ILLEGAL_ARGUMENT_ERROR : UErrorCode := 1

/-- ICU `U_MEMORY_ALLOCATION_ERROR`. -/
def U_MEMORY_ALLOCATION_ERROR : UErrorCode := 7

/-- ICU `U_BUFFER_OVERFLOW_ERROR`. -/
def U_BUFFER_OVERFLOW_ERROR : UErrorCode := 15

/-- ICU `U_UNSUPPORTED_ERROR`. -/
def U_UNSUPPORTED_ERROR : UErrorCode := 16

/-- ICU `U_STRING_NOT_TERMINATED_WARNING` (a warning, hence a success value). -/
def U_STRING_NOT_TERMINATED_WARNING : UErrorCode := -124

/-- ICU macro `U_FAILURE(x)`: the code is a proper error (`x > U_ZERO_ERROR`). -/
def U_FAILURE (x : UErrorCode) : Bool := decide (0 < x)

/-- ICU macro `U_SUCCESS(x)`: the code is a success or warning (`x <= U_ZERO_ERROR`). -/
def U_SUCCESS (x : UErrorCode) : Bool := decide (x ≤ 0)

/-- Modelled from the spec: `UErrorCodeToBool` is declared in the PAL headers
(not under `src/`); per the spec, error handling is "a direct pass-through of
the wrapped library's status enumeration, converted to a boolean success
flag", so it maps a success status to 1 and anything else to 0. -/
def UErrorCodeToBool (status : UErrorCode) : Int :=
  if U_SUCCESS status then 1 else 0

/-- ICU `UNUM_DECIMAL_SEPARATOR_SYMBOL` (unum.h). -/
def UNUM_DECIMAL_SEPARATOR_SYMBOL : Int := 0

/-- ICU `UNUM_GROUPING_SEPARATOR_SYMBOL` (unum.h). -/
def UNUM_GROUPING_SEPARATOR_SYMBOL : Int := 1

/-- ICU `UNUM_PERCENT_SYMBOL` (unum.h). -/
def UNUM_PERCENT_SYMBOL : Int := 3

/-- ICU `UNUM_ZERO_DIGIT_SYMBOL` (unum.h). -/
def UNUM_ZERO_DIGIT_SYMBOL : Int := 4

/-- ICU `UNUM_MINUS_SIGN_SYMBOL` (unum.h). -/
def UNUM_MINUS_SIGN_SYMBOL : Int := 6

/-- ICU `UNUM_PLUS_SIGN_SYMBOL` (unum.h). -/
def UNUM_PLUS_SIGN_SYMBOL : Int := 7

/-- ICU `UNUM_CURRENCY_SYMBOL` (unum.h). -/
def UNUM_CURRENCY_SYMBOL : Int := 8

/-- ICU `UNUM_INTL_CURRENCY_SYMBOL` (unum.h). -/
def UNUM_INTL_CURRENCY_SYMBOL : Int := 9

/-- ICU `UNUM_MONETARY_SEPARATOR_SYMBOL` (unum.h). -/
def UNUM_MONETARY_SEPARATOR_SYMBOL : Int := 10

/-- ICU `UNUM_PERMILL_SYMBOL` (unum.h). -/
def UNUM_PERMILL_SYMBOL : Int := 12

/-- ICU `UNUM_INFINITY_SYMBOL` (unum.h). -/
def UNUM_INFINITY_SYMBOL : Int := 14

/-- ICU `UNUM_NAN_SYMBOL` (unum.h). -/
def UNUM_NAN_SYMBOL : Int := 15

/-- ICU `UNUM_MONETARY_GROUPING_SEPARATOR_SYMBOL` (unum.h). -/
def UNUM_MONETARY_GROUPING_SEPARATOR_SYMBOL : Int := 17

/-- ICU `UNUM_ONE_DIGIT_SYMBOL` (unum.h); `UNUM_TWO_DIGIT_SYMBOL` through
`UNUM_NINE_DIGIT_SYMBOL` are the next consecutive values, up to 26. -/
def UNUM_ONE_DIGIT_SYMBOL : Int := 18

/-- ICU `UNUM_NINE_DIGIT_SYMBOL` (unum.h). -/
def UNUM_NINE_DIGIT_SYMBOL : Int := 26

/-- ICU `ULOC_ENGLISH` (uloc.h): the literal locale name `"en"`. -/
def ULOC_ENGLISH : String := "en"

/-- ICU `ULOC_US` (uloc.h): the literal locale name `"en_US"`. -/
def ULOC_US : String := "en_US"

/-- ICU `ULOC_FULLNAME_CAPACITY` (uloc.h). -/
def ULOC_FULLNAME_CAPACITY : Int := 157

/-- A C string converted to UTF-16 code units (`u_charsToUChars`). -/
def strToUChars (s : String) : List UChar := s.data.map Char.toNat

/-- Write the code units `s` into `buf` starting at offset `off`; units that
would land beyond the end of `buf` are dropped (the C code never writes past
the capacity it hands to the library).  The length of the buffer is
preserved. -/
def writeChars (buf : Buffer) (off : Nat) (s : List UChar) : Buffer :=
  buf.take off ++ s.take (buf.length - off) ++ buf.drop (off + s.length)

/-- The observable external events of one shim call, in program order. -/
inductive Event : Type
  /-- `GetLocale` canonicalization (true = succeeded). -/
  | evGetLocale (ok : Bool)
  /-- `uloc_getDisplayName` / `uloc_getDisplayLanguage` / `uloc_getDisplayCountry`
  (kind 0 / 1 / 2) against the given display locale. -/
  | evUlocDisplay (kind : Nat) (displayLocale : String)
  /-- `unum_open(UNUM_DECIMAL, ...)` (true = succeeded). -/
  | evUnumOpen (ok : Bool)
  /-- `unum_getSymbol` for the given symbol id. -/
  | evUnumGetSymbol (symbol : Int)
  /-- `unum_close`. -/
  | evUnumClose
  /-- `udat_open` (true = succeeded). -/
  | evUdatOpen (ok : Bool)
  /-- `udat_getSymbols(UDAT_AM_PMS, index)`. -/
  | evUdatGetSymbols (index : Int)
  /-- `udat_toPattern`. -/
  | evUdatToPattern
  /-- `udat_close`. -/
  | evUdatClose
  /-- `uloc_getLanguage`. -/
  | evUlocGetLanguage
  /-- `uloc_getCountry`. -/
  | evUlocGetCountry
  /-- `uloc_getISO3Language`. -/
  | evUlocISO3Language
  /-- `uloc_getISO3Country`. -/
  | evUlocISO3Country
  /-- `uloc_getParent`. -/
  | evUlocGetParent
  /-- `ucurr_forLocale`. -/
  | evCurrForLocale
  /-- `ucurr_getName`. -/
  | evCurrGetName
  /-- `calloc` of the given element count (true = succeeded). -/
  | evCalloc (size : Nat) (ok : Bool)
  /-- `free` of the temporary buffer. -/
  | evFree
deriving DecidableEq, Repr

/-- Oracle for the external ICU library and for the repository helpers that
live outside `pal_localeStringData.c`.  Each string query returns the status
the library reports together with the full data string for that query; the
write into a caller buffer of a given capacity follows the uniform ICU
string-out convention `icuStringOut` below.  The oracle is a record of pure
functions: the wrapped library is consulted, never mutated, which reflects
that the C file has no globals and treats ICU as a pure data source. -/
structure Model : Type where
  /-- Modelled from the spec: `GetLocale` (declared in the PAL locale header,
  not under `src/`) "canonicalizes the locale string"; it reports a status and,
  on success, the canonical locale as a C string.  A failure status means
  canonicalization failed. -/
  getLocale : List UChar → UErrorCode × String
  /-- Modelled from the spec: `DetectDefaultLocaleName` (not under `src/`)
  yields the current default locale name used as the display locale for the
  "localized" display-name queries. -/
  defaultLocaleName : String
  /-- `uloc_getDisplayName locale displayLocale`: status and data string. -/
  displayName : String → String → UErrorCode × List UChar
  /-- `uloc_getDisplayLanguage locale displayLocale`: status and data string. -/
  displayLanguage : String → String → UErrorCode × List UChar
  /-- `uloc_getDisplayCountry locale displayLocale`: status and data string. -/
  displayCountry : String → String → UErrorCode × List UChar
  /-- Status of `unum_open(UNUM_DECIMAL, NULL, 0, locale, NULL, &status)`. -/
  unumOpenStatus : String → UErrorCode
  /-- `unum_getSymbol` on the decimal formatter opened for the locale:
  status and the symbol string for the given symbol id. -/
  unumSymbol : String → Int → UErrorCode × List UChar
  /-- Status of `udat_open(UDAT_DEFAULT, UDAT_DEFAULT, locale, ...)`. -/
  udatOpenStatus : String → UErrorCode
  /-- `udat_getSymbols(UDAT_AM_PMS, index)` on the date formatter opened for
  the locale: status and the designator string. -/
  udatAmPm : String → Int → UErrorCode × List UChar
  /-- Status of `udat_open(style, UDAT_NONE, locale, ...)`; the Bool is
  whether the style is `UDAT_SHORT` (true) or `UDAT_MEDIUM` (false). -/
  udatPatternOpenStatus : String → Bool → UErrorCode
  /-- `udat_toPattern` on that formatter: status and the pattern string. -/
  udatPattern : String → Bool → UErrorCode × List UChar
  /-- `uloc_getLanguage locale`: status and the language tag as a C string
  (the preflight call reports the length of this string). -/
  langOf : String → UErrorCode × String
  /-- `uloc_getCountry locale`: status and the country tag as a C string. -/
  countryOf : String → UErrorCode × String
  /-- `uloc_getISO3Language locale`: a static C string, empty on failure. -/
  iso3Language : String → String
  /-- `uloc_getISO3Country locale`: a static C string, empty on failure. -/
  iso3Country : String → String
  /-- `uloc_getParent locale`: status and the parent locale as a C string. -/
  parentName : String → UErrorCode × String
  /-- `ucurr_forLocale locale`: status and the three-letter currency code. -/
  currForLocale : String → UErrorCode × List UChar
  /-- `ucurr_getName code displayLocale` with `UCURR_LONG_NAME`: status and the
  currency long name (whose length is the `len` the library reports). -/
  currName : List UChar → String → UErrorCode × List UChar
  /-- Whether `calloc` of the given element count succeeds. -/
  callocOk : Nat → Bool

/-- The uniform ICU convention for a string-returning call `f(..., dest, cap,
&status)`: a call entered with a failure status is a no-op; otherwise, if the
query itself failed the failing status is stored and nothing is written; if
the data has length > cap the truncated data is written and the status becomes
`U_BUFFER_OVERFLOW_ERROR`; if the length equals cap the data is written
unterminated with `U_STRING_NOT_TERMINATED_WARNING`; otherwise the data plus a
NUL terminator is written and the query's status is stored. -/
def icuStringOut (incoming : UErrorCode) (q : UErrorCode × List UChar)
    (buf : Buffer) (off : Nat) (cap : Int) : UErrorCode × Buffer :=
  if U_FAILURE incoming then (incoming, buf)
  else if U_FAILURE q.1 then (q.1, buf)
  else
    let s := q.2
    if (s.length : Int) > cap then
      (U_BUFFER_OVERFLOW_ERROR, writeChars buf off (s.take cap.toNat))
    else if (s.length : Int) = cap then
      (U_STRING_NOT_TERMINATED_WARNING, writeChars buf off s)
    else (q.1, writeChars buf off (s ++ [0]))

/-- Modelled from the spec: `u_charsToUChars_safe` is declared in the PAL
locale header (not under `src/`); per the spec's "buffer-size ... bookkeeping"
it copies the C string into the UChar buffer, failing with
`U_BUFFER_OVERFLOW_ERROR` when the string (plus its NUL terminator) does not
fit in `valueLength` units, and otherwise writing the string followed by the
terminator and returning `U_ZERO_ERROR`. -/
def u_charsToUChars_safe (str : String) (value : Buffer) (valueLength : Int) :
    UErrorCode × Buffer :=
  if (str.length : Int) ≥ valueLength then (U_BUFFER_OVERFLOW_ERROR, value)
  else (U_ZERO_ERROR, writeChars value 0 (strToUChars str ++ [0]))

/-- Underscores become dashes in the NUL-terminated prefix of a buffer,
scanning at most `n` units and stopping at the first NUL. -/
def fixupList : Buffer → Nat → Buffer
  | [], _ => []
  | l, 0 => l
  | c :: rest, n + 1 =>
    if c = 0 then c :: rest
    else (if c = 95 then 45 else c) :: fixupList rest n

/-- Modelled from the spec: `FixupLocaleName` is declared in the PAL locale
header (not under `src/`); the spec's locales are dash-separated identifiers
(e.g. "en-US") while the wrapped library produces underscore-separated names,
so this rewrites underscores to dashes in the NUL-terminated prefix of the
buffer, scanning at most `valueLength` units. -/
def FixupLocaleName (value : Buffer) (valueLength : Int) : Buffer :=
  fixupList value valueLength.toNat

/-- `GetLocaleInfoDecimalFormatSymbol` (pal_localeStringData.c:18): opens a
decimal `UNumberFormat` for the locale; on open failure returns that status;
otherwise reads one symbol into the buffer, closes the formatter, and returns
the resulting status.  The C `value` pointer may already be offset (see
`GetDigitSymbol`), which the embedding renders as the explicit offset `off`
into the caller's buffer. -/
def GetLocaleInfoDecimalFormatSymbol (m : Model) (locale : String) (symbol : Int)
    (value : Buffer) (off : Nat) (valueLength : Int) :
    UErrorCode × Buffer × List Event :=
  let status := m.unumOpenStatus locale
  if U_FAILURE status then (status, value, [Event.evUnumOpen false])
  else
    let r := icuStringOut status (m.unumSymbol locale symbol) value off valueLength
    (r.1, r.2, [Event.evUnumOpen true, Event.evUnumGetSymbol symbol, Event.evUnumClose])

/-- `GetDigitSymbol` (pal_localeStringData.c:39): returns a failing
`previousStatus` unchanged without touching the library or the buffer;
otherwise reads the symbol at `value + digit` with `valueLength - digit`
remaining space. -/
def GetDigitSymbol (m : Model) (locale : String) (previousStatus : UErrorCode)
    (symbol : Int) (digit : Nat) (value : Buffer) (valueLength : Int) :
    UErrorCode × Buffer × List Event :=
  if U_FAILURE previousStatus then (previousStatus, value, [])
  else GetLocaleInfoDecimalFormatSymbol m locale symbol value digit
    (valueLength - (digit : Int))

/-- `GetLocaleInfoAmPm` (pal_localeStringData.c:60): opens a default
`UDateFormat` for the locale; on open failure returns that status; otherwise
reads the AM (index 0) or PM (index 1) designator, closes the formatter, and
returns the resulting status. -/
def GetLocaleInfoAmPm (m : Model) (locale : String) (am : Bool)
    (value : Buffer) (valueLength : Int) : UErrorCode × Buffer × List Event :=
  let status := m.udatOpenStatus locale
  if U_FAILURE status then (status, value, [Event.evUdatOpen false])
  else
    let idx : Int := if am then 0 else 1
    let r := icuStringOut status (m.udatAmPm locale idx) value 0 valueLength
    (r.1, r.2, [Event.evUdatOpen true, Event.evUdatGetSymbols idx, Event.evUdatClose])

/-- `GetLocaleIso639LanguageTwoLetterName` (pal_localeStringData.c:80):
preflights `uloc_getLanguage` for the needed length, `calloc`s length + 1
bytes (returning `U_MEMORY_ALLOCATION_ERROR` if that fails), re-runs
`uloc_getLanguage` into the temporary buffer, converts the result into the
caller's UChar buffer when the query succeeded, and frees the temporary
buffer. -/
def GetLocaleIso639LanguageTwoLetterName (m : Model) (locale : String)
    (value : Buffer) (valueLength : Int) : UErrorCode × Buffer × List Event :=
  let length : Nat := (m.langOf locale).2.length + 1
  if (m.callocOk length : Bool) = false then
    (U_MEMORY_ALLOCATION_ERROR, value,
      [Event.evUlocGetLanguage, Event.evCalloc length false])
  else
    let st := (m.langOf locale).1
    if U_SUCCESS st then
      let r := u_charsToUChars_safe (m.langOf locale).2 value valueLength
      (r.1, r.2,
        [Event.evUlocGetLanguage, Event.evCalloc length true,
         Event.evUlocGetLanguage, Event.evFree])
    else
      (st, value,
        [Event.evUlocGetLanguage, Event.evCalloc length true,
         Event.evUlocGetLanguage, Event.evFree])

/-- `GetLocaleIso639LanguageThreeLetterName` (pal_localeStringData.c:110):
reads the static ISO-639-3 language string; an empty result yields
`U_ILLEGAL_ARGUMENT_ERROR`, otherwise the string is converted into the
caller's buffer. -/
def GetLocaleIso639LanguageThreeLetterName (m : Model) (locale : String)
    (value : Buffer) (valueLength : Int) : UErrorCode × Buffer × List Event :=
  let iso := m.iso3Language locale
  if iso.length = 0 then
    (U_ILLEGAL_ARGUMENT_ERROR, value, [Event.evUlocISO3Language])
  else
    let r := u_charsToUChars_safe iso value valueLength
    (r.1, r.2, [Event.evUlocISO3Language])

/-- `GetLocaleIso3166CountryName` (pal_localeStringData.c:127): same shape as
`GetLocaleIso639LanguageTwoLetterName` with `uloc_getCountry`. -/
def GetLocaleIso3166CountryName (m : Model) (locale : String)
    (value : Buffer) (valueLength : Int) : UErrorCode × Buffer × List Event :=
  let length : Nat := (m.countryOf locale).2.length + 1
  if (m.callocOk length : Bool) = false then
    (U_MEMORY_ALLOCATION_ERROR, value,
      [Event.evUlocGetCountry, Event.evCalloc length false])
  else
    let st := (m.countryOf locale).1
    if U_SUCCESS st then
      let r := u_charsToUChars_safe (m.countryOf locale).2 value valueLength
      (r.1, r.2,
        [Event.evUlocGetCountry, Event.evCalloc length true,
         Event.evUlocGetCountry, Event.evFree])
    else
      (st, value,
        [Event.evUlocGetCountry, Event.evCalloc length true,
         Event.evUlocGetCountry, Event.evFree])

/-- `GetLocaleIso3166CountryCode` (pal_localeStringData.c:158): reads the
static ISO-3166 three-letter country string; an empty result yields
`U_ILLEGAL_ARGUMENT_ERROR`, otherwise the string is converted into the
caller's buffer. -/
def GetLocaleIso3166CountryCode (m : Model) (locale : String)
    (value : Buffer) (valueLength : Int) : UErrorCode × Buffer × List Event :=
  let iso := m.iso3Country locale
  if iso.length = 0 then
    (U_ILLEGAL_ARGUMENT_ERROR, value, [Event.evUlocISO3Country])
  else
    let r := u_charsToUChars_safe iso value valueLength
    (r.1, r.2, [Event.evUlocISO3Country])

/-- `GetLocaleCurrencyName` (pal_localeStringData.c:177): looks up the
three-letter currency code for the locale, then its long name against either
the locale itself (`nativeName`) or `ULOC_US`; a name of length
`len >= valueLength` yields `U_BUFFER_OVERFLOW_ERROR` (room is needed for the
NUL); otherwise exactly `len` code units are copied and a NUL terminator is
stored at index `len`. -/
def GetLocaleCurrencyName (m : Model) (locale : String) (nativeName : Bool)
    (value : Buffer) (valueLength : Int) : UErrorCode × Buffer × List Event :=
  let st1 := (m.currForLocale locale).1
  if (U_SUCCESS st1 : Bool) = false then (st1, value, [Event.evCurrForLocale])
  else
    let code := (m.currForLocale locale).2
    let displayLocale := if nativeName then locale else ULOC_US
    let st2 := (m.currName code displayLocale).1
    if (U_SUCCESS st2 : Bool) = false then
      (st2, value, [Event.evCurrForLocale, Event.evCurrGetName])
    else
      let name := (m.currName code displayLocale).2
      if ((name.length : Int) ≥ valueLength : Bool) then
        (U_BUFFER_OVERFLOW_ERROR, value, [Event.evCurrForLocale, Event.evCurrGetName])
      else
        (st2, writeChars (writeChars value 0 name) name.length [0],
          [Event.evCurrForLocale, Event.evCurrGetName])

/-- The `LocaleStringData` field identifiers handled by the dispatch switch in
`GlobalizationNative_GetLocaleInfoString`.  The C type is an enum (declared in
`pal_localeStringData.h`, not under `src/`); `UnknownField` stands for any
integral value outside the cases the switch enumerates, which the `default`
arm receives. -/
inductive LocaleStringData : Type
  | LocalizedDisplayName
  | EnglishDisplayName
  | NativeDisplayName
  | LocalizedLanguageName
  | EnglishLanguageName
  | NativeLanguageName
  | EnglishCountryName
  | NativeCountryName
  | ListSeparator
  | ThousandSeparator
  | DecimalSeparator
  | Digits
  | MonetarySymbol
  | Iso4217MonetarySymbol
  | CurrencyEnglishName
  | CurrencyNativeName
  | MonetaryDecimalSeparator
  | MonetaryThousandSeparator
  | AMDesignator
  | PMDesignator
  | PositiveSign
  | NegativeSign
  | Iso639LanguageTwoLetterName
  | Iso639LanguageThreeLetterName
  | Iso3166CountryName
  | Iso3166CountryName2
  | NaNSymbol
  | PositiveInfinitySymbol
  | ParentName
  | PercentSymbol
  | PerMilleSymbol
  | UnknownField (code : Int)
deriving DecidableEq, Repr

/-- Result of one PAL entry point: the `int32_t` return value, the final value
of the C `status` variable, the final output buffer, and the trace of external
events in program order. -/
structure RunResult : Type where
  ret : Int
  status : UErrorCode
  buf : Buffer
  trace : List Event
deriving DecidableEq, Repr

/-- The chain of `GetDigitSymbol` calls of the `Digits` case, run over a list
of (symbol id, character index) pairs, threading the status exactly as the C
loop threads its `status` variable. -/
def runDigits (m : Model) (locale : String) (st : UErrorCode) (value : Buffer)
    (valueLength : Int) : List (Int × Nat) → UErrorCode × Buffer × List Event
  | [] => (st, value, [])
  | p :: rest =>
    let r := GetDigitSymbol m locale st p.1 p.2 value valueLength
    let rs := runDigits m locale r.1 r.2.1 valueLength rest
    (rs.1, rs.2.1, r.2.2 ++ rs.2.2)

/-- The (symbol id, character index) pairs the `Digits` case issues: first
`UNUM_ZERO_DIGIT_SYMBOL` at index 0, then the loop over
`UNUM_ONE_DIGIT_SYMBOL .. UNUM_NINE_DIGIT_SYMBOL` with character index
`symbol - UNUM_ONE_DIGIT_SYMBOL + 1`. -/
def digitPairs : List (Int × Nat) :=
  (UNUM_ZERO_DIGIT_SYMBOL, 0) ::
    (List.range 9).map (fun (i : Nat) => (UNUM_ONE_DIGIT_SYMBOL + (i : Int), i + 1))

/-- `GlobalizationNative_GetLocaleInfoString` (pal_localeStringData.c:219):
canonicalizes the locale name via `GetLocale`; on failure returns
`UErrorCodeToBool(U_ILLEGAL_ARGUMENT_ERROR)` at once; otherwise dispatches on
the field identifier exactly as the C switch does and returns
`UErrorCodeToBool` of the final status. -/
def GlobalizationNative_GetLocaleInfoString (m : Model) (localeName : List UChar)
    (localeStringData : LocaleStringData) (value : Buffer) (valueLength : Int) :
    RunResult :=
  let st0 := (m.getLocale localeName).1
  if U_FAILURE st0 then
    ⟨UErrorCodeToBool U_ILLEGAL_ARGUMENT_ERROR, st0, value, [Event.evGetLocale false]⟩
  else
    let locale := (m.getLocale localeName).2
    let out : UErrorCode × Buffer × List Event :=
      match localeStringData with
      | .LocalizedDisplayName =>
        let r := icuStringOut st0 (m.displayName locale m.defaultLocaleName) value 0 valueLength
        (r.1, r.2, [Event.evUlocDisplay 0 m.defaultLocaleName])
      | .EnglishDisplayName =>
        let r := icuStringOut st0 (m.displayName locale ULOC_ENGLISH) value 0 valueLength
        (r.1, r.2, [Event.evUlocDisplay 0 ULOC_ENGLISH])
      | .NativeDisplayName =>
        let r := icuStringOut st0 (m.displayName locale locale) value 0 valueLength
        (r.1, r.2, [Event.evUlocDisplay 0 locale])
      | .LocalizedLanguageName =>
        let r := icuStringOut st0 (m.displayLanguage locale m.defaultLocaleName) value 0 valueLength
        (r.1, r.2, [Event.evUlocDisplay 1 m.defaultLocaleName])
      | .EnglishLanguageName =>
        let r := icuStringOut st0 (m.displayLanguage locale ULOC_ENGLISH) value 0 valueLength
        (r.1, r.2, [Event.evUlocDisplay 1 ULOC_ENGLISH])
      | .NativeLanguageName =>
        let r := icuStringOut st0 (m.displayLanguage locale locale) value 0 valueLength
        (r.1, r.2, [Event.evUlocDisplay 1 locale])
      | .EnglishCountryName =>
        let r := icuStringOut st0 (m.displayCountry locale ULOC_ENGLISH) value 0 valueLength
        (r.1, r.2, [Event.evUlocDisplay 2 ULOC_ENGLISH])
      | .NativeCountryName =>
        let r := icuStringOut st0 (m.displayCountry locale locale) value 0 valueLength
        (r.1, r.2, [Event.evUlocDisplay 2 locale])
      | .ListSeparator =>
        GetLocaleInfoDecimalFormatSymbol m locale UNUM_GROUPING_SEPARATOR_SYMBOL value 0 valueLength
      | .ThousandSeparator =>
        GetLocaleInfoDecimalFormatSymbol m locale UNUM_GROUPING_SEPARATOR_SYMBOL value 0 valueLength
      | .DecimalSeparator =>
        GetLocaleInfoDecimalFormatSymbol m locale UNUM_DECIMAL_SEPARATOR_SYMBOL value 0 valueLength
      | .Digits =>
        runDigits m locale st0 value valueLength digitPairs
      | .MonetarySymbol =>
        GetLocaleInfoDecimalFormatSymbol m locale UNUM_CURRENCY_SYMBOL value 0 valueLength
      | .Iso4217MonetarySymbol =>
        GetLocaleInfoDecimalFormatSymbol m locale UNUM_INTL_CURRENCY_SYMBOL value 0 valueLength
      | .CurrencyEnglishName =>
        GetLocaleCurrencyName m locale false value valueLength
      | .CurrencyNativeName =>
        GetLocaleCurrencyName m locale true value valueLength
      | .MonetaryDecimalSeparator =>
        GetLocaleInfoDecimalFormatSymbol m locale UNUM_MONETARY_SEPARATOR_SYMBOL value 0 valueLength
      | .MonetaryThousandSeparator =>
        GetLocaleInfoDecimalFormatSymbol m locale UNUM_MONETARY_GROUPING_SEPARATOR_SYMBOL value 0 valueLength
      | .AMDesignator =>
        GetLocaleInfoAmPm m locale true value valueLength
      | .PMDesignator =>
        GetLocaleInfoAmPm m locale false value valueLength
      | .PositiveSign =>
        GetLocaleInfoDecimalFormatSymbol m locale UNUM_PLUS_SIGN_SYMBOL value 0 valueLength
      | .NegativeSign =>
        GetLocaleInfoDecimalFormatSymbol m locale UNUM_MINUS_SIGN_SYMBOL value 0 valueLength
      | .Iso639LanguageTwoLetterName =>
        GetLocaleIso639LanguageTwoLetterName m locale value valueLength
      | .Iso639LanguageThreeLetterName =>
        GetLocaleIso639LanguageThreeLetterName m locale value valueLength
      | .Iso3166CountryName =>
        GetLocaleIso3166CountryName m locale value valueLength
      | .Iso3166CountryName2 =>
        GetLocaleIso3166CountryCode m locale value valueLength
      | .NaNSymbol =>
        GetLocaleInfoDecimalFormatSymbol m locale UNUM_NAN_SYMBOL value 0 valueLength
      | .PositiveInfinitySymbol =>
        GetLocaleInfoDecimalFormatSymbol m locale UNUM_INFINITY_SYMBOL value 0 valueLength
      | .ParentName =>
        let stp := (m.parentName locale).1
        if U_SUCCESS stp then
          let r := u_charsToUChars_safe (m.parentName locale).2 value valueLength
          if U_SUCCESS r.1 then
            (r.1, FixupLocaleName r.2 valueLength, [Event.evUlocGetParent])
          else (r.1, r.2, [Event.evUlocGetParent])
        else (stp, value, [Event.evUlocGetParent])
      | .PercentSymbol =>
        GetLocaleInfoDecimalFormatSymbol m locale UNUM_PERCENT_SYMBOL value 0 valueLength
      | .PerMilleSymbol =>
        GetLocaleInfoDecimalFormatSymbol m locale UNUM_PERMILL_SYMBOL value 0 valueLength
      | .UnknownField _ =>
        (U_UNSUPPORTED_ERROR, value, [])
    ⟨UErrorCodeToBool out.1, out.1, out.2.1, Event.evGetLocale true :: out.2.2⟩

/-- `GlobalizationNative_GetLocaleTimeFormat` (pal_localeStringData.c:362):
canonicalizes the locale name via `GetLocale`; on failure returns
`UErrorCodeToBool(U_ILLEGAL_ARGUMENT_ERROR)`; otherwise opens a `UDateFormat`
with style `UDAT_SHORT` when `shortFormat != 0` and `UDAT_MEDIUM` otherwise,
returning `UErrorCodeToBool` of the open status when the open fails, and
otherwise reads the pattern, closes the formatter, and returns
`UErrorCodeToBool` of the resulting status. -/
def GlobalizationNative_GetLocaleTimeFormat (m : Model) (localeName : List UChar)
    (shortFormat : Int) (value : Buffer) (valueLength : Int) : RunResult :=
  let st0 := (m.getLocale localeName).1
  if U_FAILURE st0 then
    ⟨UErrorCodeToBool U_ILLEGAL_ARGUMENT_ERROR, st0, value, [Event.evGetLocale false]⟩
  else
    let locale := (m.getLocale localeName).2
    let short : Bool := shortFormat ≠ 0
    let stOpen := m.udatPatternOpenStatus locale short
    if U_FAILURE stOpen then
      ⟨UErrorCodeToBool stOpen, stOpen, value, [Event.evGetLocale true, Event.evUdatOpen false]⟩
    else
      let r := icuStringOut stOpen (m.udatPattern locale short) value 0 valueLength
      ⟨UErrorCodeToBool r.1, r.1, r.2,
        [Event.evGetLocale true, Event.evUdatOpen true, Event.evUdatToPattern,
         Event.evUdatClose]⟩

/-- The ten digit symbol ids, in query order: `UNUM_ZERO_DIGIT_SYMBOL` then
`UNUM_ONE_DIGIT_SYMBOL` through `UNUM_NINE_DIGIT_SYMBOL`. -/
def specDigitSyms : List Int := [4, 18, 19, 20, 21, 22, 23, 24, 25, 26]

/-- Spec-side reading of the `Digits` query, for the refinement claim: digit
i's symbol is written at offset i of the output buffer with
`valueLength - i` remaining space, and the chain stops at the first failing
status. -/
def specDigitsGo (m : Model) (locale : String) (valueLength : Int) :
    List Int → Nat → UErrorCode → Buffer → UErrorCode × Buffer
  | [], _, st, value => (st, value)
  | s :: rest, i, st, value =>
    if U_FAILURE st then (st, value)
    else
      let r := icuStringOut U_ZERO_ERROR (m.unumSymbol locale s) value i
        (valueLength - (i : Int))
      specDigitsGo m locale valueLength rest (i + 1) r.1 r.2

/-- Spec-side reference for the refinement claim, written from the spec's
words: "for a given locale and field ID, the returned string matches what the
underlying locale library returns for the equivalent query".  For each field
identifier this gives the equivalent library query and its effect (status and
buffer) under the ICU string-out convention; fields the dispatch does not
enumerate produce the unsupported status and leave the buffer alone.  The
adapter plumbing (formatter opens/closes, temporary allocations) is absent
here: the theorem assumes those auxiliary steps succeed. -/
def specFieldRun (m : Model) (locale : String) (data : LocaleStringData)
    (value : Buffer) (valueLength : Int) : UErrorCode × Buffer :=
  match data with
  | .LocalizedDisplayName =>
    icuStringOut U_ZERO_ERROR (m.displayName locale m.defaultLocaleName) value 0 valueLength
  | .EnglishDisplayName =>
    icuStringOut U_ZERO_ERROR (m.displayName locale ULOC_ENGLISH) value 0 valueLength
  | .NativeDisplayName =>
    icuStringOut U_ZERO_ERROR (m.displayName locale locale) value 0 valueLength
  | .LocalizedLanguageName =>
    icuStringOut U_ZERO_ERROR (m.displayLanguage locale m.defaultLocaleName) value 0 valueLength
  | .EnglishLanguageName =>
    icuStringOut U_ZERO_ERROR (m.displayLanguage locale ULOC_ENGLISH) value 0 valueLength
  | .NativeLanguageName =>
    icuStringOut U_ZERO_ERROR (m.displayLanguage locale locale) value 0 valueLength
  | .EnglishCountryName =>
    icuStringOut U_ZERO_ERROR (m.displayCountry locale ULOC_ENGLISH) value 0 valueLength
  | .NativeCountryName =>
    icuStringOut U_ZERO_ERROR (m.displayCountry locale locale) value 0 valueLength
  | .ListSeparator =>
    icuStringOut U_ZERO_ERROR (m.unumSymbol locale UNUM_GROUPING_SEPARATOR_SYMBOL) value 0 valueLength
  | .ThousandSeparator =>
    icuStringOut U_ZERO_ERROR (m.unumSymbol locale UNUM_GROUPING_SEPARATOR_SYMBOL) value 0 valueLength
  | .DecimalSeparator =>
    icuStringOut U_ZERO_ERROR (m.unumSymbol locale UNUM_DECIMAL_SEPARATOR_SYMBOL) value 0 valueLength
  | .Digits =>
    specDigitsGo m locale valueLength specDigitSyms 0 U_ZERO_ERROR value
  | .MonetarySymbol =>
    icuStringOut U_ZERO_ERROR (m.unumSymbol locale UNUM_CURRENCY_SYMBOL) value 0 valueLength
  | .Iso4217MonetarySymbol =>
    icuStringOut U_ZERO_ERROR (m.unumSymbol locale UNUM_INTL_CURRENCY_SYMBOL) value 0 valueLength
  | .CurrencyEnglishName =>
    let st1 := (m.currForLocale locale).1
    if (U_SUCCESS st1 : Bool) = false then (st1, value)
    else
      let st2 := (m.currName (m.currForLocale locale).2 ULOC_US).1
      if (U_SUCCESS st2 : Bool) = false then (st2, value)
      else
        let name := (m.currName (m.currForLocale locale).2 ULOC_US).2
        if ((name.length : Int) ≥ valueLength : Bool) then (U_BUFFER_OVERFLOW_ERROR, value)
        else (st2, writeChars (writeChars value 0 name) name.length [0])
  | .CurrencyNativeName =>
    let st1 := (m.currForLocale locale).1
    if (U_SUCCESS st1 : Bool) = false then (st1, value)
    else
      let st2 := (m.currName (m.currForLocale locale).2 locale).1
      if (U_SUCCESS st2 : Bool) = false then (st2, value)
      else
        let name := (m.currName (m.currForLocale locale).2 locale).2
        if ((name.length : Int) ≥ valueLength : Bool) then (U_BUFFER_OVERFLOW_ERROR, value)
        else (st2, writeChars (writeChars value 0 name) name.length [0])
  | .MonetaryDecimalSeparator =>
    icuStringOut U_ZERO_ERROR (m.unumSymbol locale UNUM_MONETARY_SEPARATOR_SYMBOL) value 0 valueLength
  | .MonetaryThousandSeparator =>
    icuStringOut U_ZERO_ERROR (m.unumSymbol locale UNUM_MONETARY_GROUPING_SEPARATOR_SYMBOL) value 0 valueLength
  | .AMDesignator =>
    icuStringOut U_ZERO_ERROR (m.udatAmPm locale 0) value 0 valueLength
  | .PMDesignator =>
    icuStringOut U_ZERO_ERROR (m.udatAmPm locale 1) value 0 valueLength
  | .PositiveSign =>
    icuStringOut U_ZERO_ERROR (m.unumSymbol locale UNUM_PLUS_SIGN_SYMBOL) value 0 valueLength
  | .NegativeSign =>
    icuStringOut U_ZERO_ERROR (m.unumSymbol locale UNUM_MINUS_SIGN_SYMBOL) value 0 valueLength
  | .Iso639LanguageTwoLetterName =>
    let st := (m.langOf locale).1
    if U_SUCCESS st then u_charsToUChars_safe (m.langOf locale).2 value valueLength
    else (st, value)
  | .Iso639LanguageThreeLetterName =>
    let iso := m.iso3Language locale
    if iso.length = 0 then (U_ILLEGAL_ARGUMENT_ERROR, value)
    else u_charsToUChars_safe iso value valueLength
  | .Iso3166CountryName =>
    let st := (m.countryOf locale).1
    if U_SUCCESS st then u_charsToUChars_safe (m.countryOf locale).2 value valueLength
    else (st, value)
  | .Iso3166CountryName2 =>
    let iso := m.iso3Country locale
    if iso.length = 0 then (U_ILLEGAL_ARGUMENT_ERROR, value)
    else u_charsToUChars_safe iso value valueLength
  | .NaNSymbol =>
    icuStringOut U_ZERO_ERROR (m.unumSymbol locale UNUM_NAN_SYMBOL) value 0 valueLength
  | .PositiveInfinitySymbol =>
    icuStringOut U_ZERO_ERROR (m.unumSymbol locale UNUM_INFINITY_SYMBOL) value 0 valueLength
  | .ParentName =>
    let stp := (m.parentName locale).1
    if U_SUCCESS stp then
      let r := u_charsToUChars_safe (m.parentName locale).2 value valueLength
      if U_SUCCESS r.1 then (r.1, FixupLocaleName r.2 valueLength)
      else (r.1, r.2)
    else (stp, value)
  | .PercentSymbol =>
    icuStringOut U_ZERO_ERROR (m.unumSymbol locale UNUM_PERCENT_SYMBOL) value 0 valueLength
  | .PerMilleSymbol =>
    icuStringOut U_ZERO_ERROR (m.unumSymbol locale UNUM_PERMILL_SYMBOL) value 0 valueLength
  | .UnknownField _ => (U_UNSUPPORTED_ERROR, value)

/-- A call into the component: either PAL entry point with its arguments
(including the initial contents of its output buffer). -/
inductive PalCall : Type
  | infoString (localeName : List UChar) (data : LocaleStringData)
      (value : Buffer) (valueLength : Int)
  | timeFormat (localeName : List UChar) (shortFormat : Int)
      (value : Buffer) (valueLength : Int)
deriving DecidableEq, Repr

/-- Run one call against the oracle. -/
def runCall (m : Model) : PalCall → RunResult
  | .infoString n d v L => GlobalizationNative_GetLocaleInfoString m n d v L
  | .timeFormat n s v L => GlobalizationNative_GetLocaleTimeFormat m n s v L

/-- Run a sequence of calls in order.  The only state a call could thread to
the next one is the oracle itself, and the C file has no globals and never
mutates the wrapped library, so each call runs against the same oracle. -/
def runSeq (m : Model) : List PalCall → List RunResult
  | [] => []
  | c :: rest => runCall m c :: runSeq m rest

/-- A concrete everything-succeeds oracle, used to evaluate the theorems at
concrete inputs. -/
def okModel : Model where
  getLocale := fun _ => (U_ZERO_ERROR, "en_US")
  defaultLocaleName := "fr"
  displayName := fun _ _ => (U_ZERO_ERROR, [69, 110])
  displayLanguage := fun _ _ => (U_ZERO_ERROR, [101])
  displayCountry := fun _ _ => (U_ZERO_ERROR, [85])
  unumOpenStatus := fun _ => U_ZERO_ERROR
  unumSymbol := fun _ s => (U_ZERO_ERROR, [100 + s.toNat])
  udatOpenStatus := fun _ => U_ZERO_ERROR
  udatAmPm := fun _ i => (U_ZERO_ERROR, [65 + i.toNat])
  udatPatternOpenStatus := fun _ _ => U_ZERO_ERROR
  udatPattern := fun _ _ => (U_ZERO_ERROR, [104, 109])
  langOf := fun _ => (U_ZERO_ERROR, "en")
  countryOf := fun _ => (U_ZERO_ERROR, "US")
  iso3Language := fun _ => "eng"
  iso3Country := fun _ => "USA"
  parentName := fun _ => (U_ZERO_ERROR, "en")
  currForLocale := fun _ => (U_ZERO_ERROR, [85, 83, 68])
  currName := fun _ _ => (U_ZERO_ERROR, [68, 111, 108])
  callocOk := fun _ => true

/-- The everything-succeeds oracle with a failing canonicalization step. -/
def failLocaleModel : Model :=
  { okModel with getLocale := fun _ => (U_ILLEGAL_ARGUMENT_ERROR, "") }

/-- The everything-succeeds oracle with a failing `unum_open`. -/
def failUnumModel : Model :=
  { okModel with unumOpenStatus := fun _ => U_MEMORY_ALLOCATION_ERROR }

/-- The everything-succeeds oracle with a failing `calloc`. -/
def failCallocModel : Model :=
  { okModel with callocOk := fun _ => false }

theorem U_FAILURE_eq_false_iff (x : UErrorCode) : U_FAILURE x = false ↔ x ≤ 0 := by
  simp [U_FAILURE]

theorem U_SUCCESS_eq_true_iff (x : UErrorCode) : U_SUCCESS x = true ↔ x ≤ 0 := by
  simp [U_SUCCESS]

theorem UErrorCodeToBool_eq_one_iff (s : UErrorCode) :
    UErrorCodeToBool s = 1 ↔ U_SUCCESS s = true := by
  unfold UErrorCodeToBool
  by_cases h : U_SUCCESS s <;> simp [h]

theorem UErrorCodeToBool_of_failure (s : UErrorCode) (h : U_FAILURE s = true) :
    UErrorCodeToBool s = 0 := by
  have hlt : 0 < s := by simpa [U_FAILURE] using h
  have hs : U_SUCCESS s = false := by
    simp only [U_SUCCESS, decide_eq_false_iff_not, not_le]
    exact hlt
  simp [UErrorCodeToBool, hs]

/-- C1: both `GlobalizationNative_GetLocaleInfoString` and
`GlobalizationNative_GetLocaleTimeFormat` convert the final library status to a
boolean success flag and nothing more: the returned `int32_t` is exactly
`UErrorCodeToBool` of the final status, and it is 1 if and only if the final
status is a success status (0 otherwise). -/
theorem getLocaleInfoString_status_bool (m : Model) (name : List UChar)
    (data : LocaleStringData) (sf : Int) (value : Buffer) (len : Int) :
    ((GlobalizationNative_GetLocaleInfoString m name data value len).ret =
        UErrorCodeToBool (GlobalizationNative_GetLocaleInfoString m name data value len).status ∧
      ((GlobalizationNative_GetLocaleInfoString m name data value len).ret = 1 ↔
        U_SUCCESS (GlobalizationNative_GetLocaleInfoString m name data value len).status = true)) ∧
    ((GlobalizationNative_GetLocaleTimeFormat m name sf value len).ret =
        UErrorCodeToBool (GlobalizationNative_GetLocaleTimeFormat m name sf value len).status ∧
      ((GlobalizationNative_GetLocaleTimeFormat m name sf value len).ret = 1 ↔
        U_SUCCESS (GlobalizationNative_GetLocaleTimeFormat m name sf value len).status = true)) := by
  have h1 : (GlobalizationNative_GetLocaleInfoString m name data value len).ret =
      UErrorCodeToBool (GlobalizationNative_GetLocaleInfoString m name data value len).status := by
    unfold GlobalizationNative_GetLocaleInfoString
    by_cases h : U_FAILURE (m.getLocale name).1
    · simp only [h, if_true]
      rw [UErrorCodeToBool_of_failure _ h]
      decide
    · simp only [h, Bool.false_eq_true, if_false]
  have h2 : (GlobalizationNative_GetLocaleTimeFormat m name sf value len).ret =
      UErrorCodeToBool (GlobalizationNative_GetLocaleTimeFormat m name sf value len).status := by
    unfold GlobalizationNative_GetLocaleTimeFormat
    by_cases h : U_FAILURE (m.getLocale name).1
    · simp only [h, if_true]
      rw [UErrorCodeToBool_of_failure _ h]
      decide
    · by_cases h3 : U_FAILURE (m.udatPatternOpenStatus (m.getLocale name).2 (decide (sf ≠ 0)))
      · simp only [h, Bool.false_eq_true, if_false, h3, if_true]
      · simp only [h, Bool.false_eq_true, if_false, h3]
  refine ⟨⟨h1, ?_⟩, h2, ?_⟩
  · rw [h1]; exact UErrorCodeToBool_eq_one_iff _
  · rw [h2]; exact UErrorCodeToBool_eq_one_iff _

/-- C2: each entry point canonicalizes the locale name first; if `GetLocale`
fails, it returns failure (0) with the buffer unchanged and with no adapter or
library call performed (the trace holds only the failed canonicalization). -/
theorem getLocaleInfoString_canonicalize_first (m : Model) (name : List UChar)
    (data : LocaleStringData) (sf : Int) (value : Buffer) (len : Int)
    (h : U_FAILURE (m.getLocale name).1 = true) :
    GlobalizationNative_GetLocaleInfoString m name data value len =
      ⟨0, (m.getLocale name).1, value, [Event.evGetLocale false]⟩ ∧
    GlobalizationNative_GetLocaleTimeFormat m name sf value len =
      ⟨0, (m.getLocale name).1, value, [Event.evGetLocale false]⟩ := by
  have hb : UErrorCodeToBool U_ILLEGAL_ARGUMENT_ERROR = 0 := by decide
  constructor
  · unfold GlobalizationNative_GetLocaleInfoString
    simp only [h, if_true, hb]
  · unfold GlobalizationNative_GetLocaleTimeFormat
    simp only [h, if_true, hb]

/-- Witness for C2: a concrete oracle whose canonicalization fails, at
concrete arguments. -/
theorem getLocaleInfoString_canonicalize_first_witness :
    GlobalizationNative_GetLocaleInfoString failLocaleModel [77]
        LocaleStringData.DecimalSeparator [7, 7] 2 =
      ⟨0, (failLocaleModel.getLocale [77]).1, [7, 7], [Event.evGetLocale false]⟩ ∧
    GlobalizationNative_GetLocaleTimeFormat failLocaleModel [77] 1 [7, 7] 2 =
      ⟨0, (failLocaleModel.getLocale [77]).1, [7, 7], [Event.evGetLocale false]⟩ :=
  getLocaleInfoString_canonicalize_first failLocaleModel [77]
    LocaleStringData.DecimalSeparator 1 [7, 7] 2 (by decide)

/-- C5: when canonicalization succeeds but the field identifier is outside the
enumerated `LocaleStringData` set, the final status is `U_UNSUPPORTED_ERROR`,
the function returns failure (0), and the output buffer is unchanged. -/
theorem getLocaleInfoString_unsupported (m : Model) (name : List UChar)
    (c : Int) (value : Buffer) (len : Int)
    (h : U_FAILURE (m.getLocale name).1 = false) :
    GlobalizationNative_GetLocaleInfoString m name (.UnknownField c) value len =
      ⟨0, U_UNSUPPORTED_ERROR, value, [Event.evGetLocale true]⟩ ∧
    U_FAILURE U_UNSUPPORTED_ERROR = true := by
  have hb : UErrorCodeToBool U_UNSUPPORTED_ERROR = 0 := by decide
  constructor
  · unfold GlobalizationNative_GetLocaleInfoString
    simp only [h, Bool.false_eq_true, if_false, hb]
  · decide

/-- Witness for C5: the everything-succeeds oracle with field code 999. -/
theorem getLocaleInfoString_unsupported_witness :
    GlobalizationNative_GetLocaleInfoString okModel [101] (.UnknownField 999) [3, 3, 3] 3 =
      ⟨0, U_UNSUPPORTED_ERROR, [3, 3, 3], [Event.evGetLocale true]⟩ ∧
    U_FAILURE U_UNSUPPORTED_ERROR = true :=
  getLocaleInfoString_unsupported okModel [101] 999 [3, 3, 3] 3 (by decide)

/-- C9: `ListSeparator` and `ThousandSeparator` are interchangeable: the same
oracle, locale name and buffer give literally the same result (return value,
status, buffer contents and trace), and after a successful canonicalization
both route to `GetLocaleInfoDecimalFormatSymbol` with
`UNUM_GROUPING_SEPARATOR_SYMBOL`. -/
theorem getLocaleInfoString_listSep_eq_thousandSep (m : Model) (name : List UChar)
    (value : Buffer) (len : Int) :
    GlobalizationNative_GetLocaleInfoString m name .ListSeparator value len =
      GlobalizationNative_GetLocaleInfoString m name .ThousandSeparator value len ∧
    (U_FAILURE (m.getLocale name).1 = false →
      GlobalizationNative_GetLocaleInfoString m name .ListSeparator value len =
        (let r := GetLocaleInfoDecimalFormatSymbol m (m.getLocale name).2
          UNUM_GROUPING_SEPARATOR_SYMBOL value 0 len
         ⟨UErrorCodeToBool r.1, r.1, r.2.1, Event.evGetLocale true :: r.2.2⟩)) := by
  constructor
  · rfl
  · intro h
    unfold GlobalizationNative_GetLocaleInfoString
    simp only [h, Bool.false_eq_true, if_false]

/-- Witness for C9: the everything-succeeds oracle at concrete arguments. -/
theorem getLocaleInfoString_listSep_eq_thousandSep_witness :
    GlobalizationNative_GetLocaleInfoString okModel [108] .ListSeparator [9, 9, 9] 3 =
      GlobalizationNative_GetLocaleInfoString okModel [108] .ThousandSeparator [9, 9, 9] 3 ∧
    (U_FAILURE (okModel.getLocale [108]).1 = false →
      GlobalizationNative_GetLocaleInfoString okModel [108] .ListSeparator [9, 9, 9] 3 =
        (let r := GetLocaleInfoDecimalFormatSymbol okModel (okModel.getLocale [108]).2
          UNUM_GROUPING_SEPARATOR_SYMBOL [9, 9, 9] 0 3
         ⟨UErrorCodeToBool r.1, r.1, r.2.1, Event.evGetLocale true :: r.2.2⟩)) :=
  getLocaleInfoString_listSep_eq_thousandSep okModel [108] [9, 9, 9] 3

/-- C4: whenever the formatter open succeeds, each of the three handle-using
functions performs exactly one data extraction and then closes the handle
before returning, whatever status the extraction produced: the trace is
exactly open, one extraction, close. -/
theorem adapters_close_handles (m : Model) (locale : String) (symbol : Int)
    (am : Bool) (name : List UChar) (sf : Int) (value : Buffer) (off : Nat) (len : Int) :
    (U_FAILURE (m.unumOpenStatus locale) = false →
      (GetLocaleInfoDecimalFormatSymbol m locale symbol value off len).2.2 =
        [Event.evUnumOpen true, Event.evUnumGetSymbol symbol, Event.evUnumClose]) ∧
    (U_FAILURE (m.udatOpenStatus locale) = false →
      (GetLocaleInfoAmPm m locale am value len).2.2 =
        [Event.evUdatOpen true, Event.evUdatGetSymbols (if am then 0 else 1),
          Event.evUdatClose]) ∧
    (U_FAILURE (m.getLocale name).1 = false →
      U_FAILURE (m.udatPatternOpenStatus (m.getLocale name).2 (decide (sf ≠ 0))) = false →
      (GlobalizationNative_GetLocaleTimeFormat m name sf value len).trace =
        [Event.evGetLocale true, Event.evUdatOpen true, Event.evUdatToPattern,
          Event.evUdatClose]) := by
  refine ⟨fun h => ?_, fun h => ?_, fun h1 h2 => ?_⟩
  · unfold GetLocaleInfoDecimalFormatSymbol
    simp only [h, Bool.false_eq_true, if_false]
  · unfold GetLocaleInfoAmPm
    simp only [h, Bool.false_eq_true, if_false]
  · unfold GlobalizationNative_GetLocaleTimeFormat
    simp only [h1, Bool.false_eq_true, if_false, h2]

/-- Witness for C4: the everything-succeeds oracle at concrete arguments. -/
theorem adapters_close_handles_witness :
    (U_FAILURE (okModel.unumOpenStatus "en") = false →
      (GetLocaleInfoDecimalFormatSymbol okModel "en" 0 [5, 5] 0 2).2.2 =
        [Event.evUnumOpen true, Event.evUnumGetSymbol 0, Event.evUnumClose]) ∧
    (U_FAILURE (okModel.udatOpenStatus "en") = false →
      (GetLocaleInfoAmPm okModel "en" true [5, 5] 2).2.2 =
        [Event.evUdatOpen true, Event.evUdatGetSymbols (if true then 0 else 1),
          Event.evUdatClose]) ∧
    (U_FAILURE (okModel.getLocale [101]).1 = false →
      U_FAILURE (okModel.udatPatternOpenStatus (okModel.getLocale [101]).2 (decide ((1 : Int) ≠ 0))) = false →
      (GlobalizationNative_GetLocaleTimeFormat okModel [101] 1 [5, 5] 2).trace =
        [Event.evGetLocale true, Event.evUdatOpen true, Event.evUdatToPattern,
          Event.evUdatClose]) :=
  adapters_close_handles okModel "en" 0 true [101] 1 [5, 5] 0 2

theorem runSeq_length (m : Model) (cs : List PalCall) :
    (runSeq m cs).length = cs.length := by
  induction cs with
  | nil => rfl
  | cons c rest ih => simp [runSeq, ih]

theorem runSeq_append_cons (m : Model) (post : List PalCall) (c : PalCall) :
    ∀ pre : List PalCall,
      runSeq m (pre ++ c :: post) = runSeq m pre ++ runCall m c :: runSeq m post := by
  intro pre
  induction pre with
  | nil => rfl
  | cons x rest ih => simp [runSeq, ih]

/-- C6: the entry points are stateless and deterministic.  Running a sequence
of calls is running each call independently against the same (unchanging)
oracle: the result of a call placed after any prefix and before any suffix of
other calls is exactly `runCall m c`, the result of running it alone, so two
calls with identical arguments and oracle produce identical results (return
value and buffer contents) and no call depends on an earlier one. -/
theorem palCalls_stateless (m : Model) (pre post : List PalCall) (c : PalCall) :
    runSeq m (pre ++ c :: post) = runSeq m pre ++ runCall m c :: runSeq m post ∧
    (runSeq m (pre ++ c :: post))[pre.length]? = some (runCall m c) := by
  refine ⟨runSeq_append_cons m post c pre, ?_⟩
  rw [runSeq_append_cons m post c pre]
  rw [List.getElem?_append_right (le_of_eq (runSeq_length m pre))]
  simp [runSeq_length]

theorem runDigits_of_failure (m : Model) (locale : String) (st : UErrorCode)
    (value : Buffer) (len : Int) (ps : List (Int × Nat)) (h : U_FAILURE st = true) :
    runDigits m locale st value len ps = (st, value, []) := by
  induction ps with
  | nil => rfl
  | cons p rest ih => simp [runDigits, GetDigitSymbol, h, ih]

theorem digitPairs_eq :
    digitPairs = [(4, 0), (18, 1), (19, 2), (20, 3), (21, 4), (22, 5), (23, 6),
      (24, 7), (25, 8), (26, 9)] := by
  decide

/-- C10: the `Digits` case queries the ten digit symbols in order (the zero
digit, then `UNUM_ONE_DIGIT_SYMBOL` (18) through `UNUM_NINE_DIGIT_SYMBOL`
(26)), writing digit i's symbol at offset i of the output buffer with
`valueLength - i` remaining space; a `GetDigitSymbol` call whose incoming
status is a failure returns that status unchanged without invoking the
library or writing to the buffer, so the whole remaining chain returns the
first failing status with no further events and no further writes. -/
theorem digits_short_circuit (m : Model) (name : List UChar) (locale : String)
    (st : UErrorCode) (symbol : Int) (digit : Nat) (value : Buffer) (len : Int)
    (ps : List (Int × Nat)) :
    (U_FAILURE (m.getLocale name).1 = false →
      GlobalizationNative_GetLocaleInfoString m name .Digits value len =
        (let r := runDigits m (m.getLocale name).2 (m.getLocale name).1 value len
            [(4, 0), (18, 1), (19, 2), (20, 3), (21, 4), (22, 5), (23, 6),
              (24, 7), (25, 8), (26, 9)]
         ⟨UErrorCodeToBool r.1, r.1, r.2.1, Event.evGetLocale true :: r.2.2⟩)) ∧
    (U_FAILURE st = false →
      GetDigitSymbol m locale st symbol digit value len =
        GetLocaleInfoDecimalFormatSymbol m locale symbol value digit
          (len - (digit : Int))) ∧
    (U_FAILURE st = true →
      GetDigitSymbol m locale st symbol digit value len = (st, value, []) ∧
      runDigits m locale st value len ps = (st, value, [])) := by
  refine ⟨fun h => ?_, fun h => ?_,
    fun h => ⟨?_, runDigits_of_failure m locale st value len ps h⟩⟩
  · unfold GlobalizationNative_GetLocaleInfoString
    rw [← digitPairs_eq]
    simp only [h, Bool.false_eq_true, if_false]
  · simp [GetDigitSymbol, h]
  · simp [GetDigitSymbol, h]

/-- Witness for C10: the everything-succeeds oracle, with incoming status 0
for the non-failing conjunct and incoming status 3 for the failing one. -/
theorem digits_short_circuit_witness :
    (GlobalizationNative_GetLocaleInfoString okModel [100] .Digits
        [9, 9, 9, 9, 9, 9, 9, 9, 9, 9, 9, 9] 12 =
      (let r := runDigits okModel (okModel.getLocale [100]).2
          (okModel.getLocale [100]).1 [9, 9, 9, 9, 9, 9, 9, 9, 9, 9, 9, 9] 12
          [(4, 0), (18, 1), (19, 2), (20, 3), (21, 4), (22, 5), (23, 6),
            (24, 7), (25, 8), (26, 9)]
       ⟨UErrorCodeToBool r.1, r.1, r.2.1, Event.evGetLocale true :: r.2.2⟩)) ∧
    (GetDigitSymbol okModel "en" 0 18 1 [9, 9, 9] 3 =
      GetLocaleInfoDecimalFormatSymbol okModel "en" 18 [9, 9, 9] 1
        (3 - ((1 : Nat) : Int))) ∧
    (GetDigitSymbol okModel "en" 3 18 1 [9, 9, 9] 3 = (3, [9, 9, 9], []) ∧
      runDigits okModel "en" 3 [9, 9, 9] 3 [(18, 1), (19, 2)] = (3, [9, 9, 9], [])) :=
  ⟨(digits_short_circuit okModel [100] "en" 0 18 1
        [9, 9, 9, 9, 9, 9, 9, 9, 9, 9, 9, 9] 12 [(18, 1), (19, 2)]).1 (by decide),
    (digits_short_circuit okModel [100] "en" 0 18 1 [9, 9, 9] 3 [(18, 1), (19, 2)]).2.1
      (by decide),
    (digits_short_circuit okModel [100] "en" 3 18 1 [9, 9, 9] 3 [(18, 1), (19, 2)]).2.2
      (by decide)⟩

theorem writeChars_at_zero (value : Buffer) (name : List UChar)
    (h : name.length ≤ value.length) :
    writeChars value 0 name = name ++ value.drop name.length := by
  simp [writeChars, List.take_of_length_le h]

theorem writeChars_terminator (value : Buffer) (name : List UChar)
    (h : name.length < value.length) :
    writeChars (writeChars value 0 name) name.length [0] =
      name ++ [0] ++ value.drop (name.length + 1) := by
  rw [writeChars_at_zero value name (le_of_lt h)]
  unfold writeChars
  have hlen : (name ++ value.drop name.length).length = value.length := by
    simp; omega
  rw [hlen]
  have h1 : (name ++ value.drop name.length).take name.length = name := by
    rw [List.take_append_of_le_length (le_refl _)]
    simp
  have h2 : (name ++ value.drop name.length).drop (name.length + 1) =
      value.drop (name.length + 1) := by
    rw [List.drop_append 1, List.drop_drop]
  have h3 : List.take (value.length - name.length) [0] = [0] := by
    apply List.take_of_length_le
    simp
    omega
  have h4 : name.length + [0].length = name.length + 1 := by simp
  rw [h1, h4, h2, h3]

/-- C7: with the two currency lookups succeeding, `GetLocaleCurrencyName`
reports `U_BUFFER_OVERFLOW_ERROR` exactly when the currency long name's
length `len` satisfies `len >= valueLength` (a failure status, since room is
needed for the NUL), and when `len < valueLength` it succeeds, writing
exactly the `len` code units of the name followed by a NUL terminator and
leaving the rest of the buffer unchanged. -/
theorem currencyName_overflow_iff (m : Model) (locale : String) (nativeB : Bool)
    (value : Buffer) (valueLength : Int)
    (h1 : U_SUCCESS (m.currForLocale locale).1 = true)
    (h2 : U_SUCCESS (m.currName (m.currForLocale locale).2
        (if nativeB then locale else ULOC_US)).1 = true)
    (hcap : value.length = valueLength.toNat) :
    ((GetLocaleCurrencyName m locale nativeB value valueLength).1 =
        U_BUFFER_OVERFLOW_ERROR ↔
      ((m.currName (m.currForLocale locale).2
          (if nativeB then locale else ULOC_US)).2.length : Int) ≥ valueLength) ∧
    (((m.currName (m.currForLocale locale).2
        (if nativeB then locale else ULOC_US)).2.length : Int) ≥ valueLength →
      U_FAILURE (GetLocaleCurrencyName m locale nativeB value valueLength).1 = true) ∧
    (((m.currName (m.currForLocale locale).2
        (if nativeB then locale else ULOC_US)).2.length : Int) < valueLength →
      U_SUCCESS (GetLocaleCurrencyName m locale nativeB value valueLength).1 = true ∧
      (GetLocaleCurrencyName m locale nativeB value valueLength).2.1 =
        (m.currName (m.currForLocale locale).2
            (if nativeB then locale else ULOC_US)).2 ++ [0] ++
          value.drop ((m.currName (m.currForLocale locale).2
            (if nativeB then locale else ULOC_US)).2.length + 1)) := by
  have hc1 : ¬(U_SUCCESS (m.currForLocale locale).1 = false) := by simp [h1]
  have hc2 : ¬(U_SUCCESS (m.currName (m.currForLocale locale).2
      (if nativeB then locale else ULOC_US)).1 = false) := by simp [h2]
  have hst2 : (m.currName (m.currForLocale locale).2
      (if nativeB then locale else ULOC_US)).1 ≤ 0 := by simpa [U_SUCCESS] using h2
  unfold GetLocaleCurrencyName
  rw [if_neg hc1, if_neg hc2]
  by_cases hge : ((m.currName (m.currForLocale locale).2
      (if nativeB then locale else ULOC_US)).2.length : Int) ≥ valueLength
  · rw [if_pos (decide_eq_true hge)]
    dsimp only
    refine ⟨by simpa using hge, fun _ => by decide, fun hlt => absurd hlt (by omega)⟩
  · rw [if_neg (by simpa using hge)]
    dsimp only
    refine ⟨⟨fun heq => ?_, fun hge2 => absurd hge2 hge⟩,
      fun hge2 => absurd hge2 hge, fun hlt => ⟨by simpa [U_SUCCESS] using hst2, ?_⟩⟩
    · have heq2 : (m.currName (m.currForLocale locale).2
          (if nativeB then locale else ULOC_US)).1 = (15 : Int) := by
        simpa [U_BUFFER_OVERFLOW_ERROR] using heq
      rw [heq2] at hst2
      exact absurd hst2 (by norm_num)
    · apply writeChars_terminator
      rw [hcap]
      omega

/-- Witness for C7: the everything-succeeds oracle, whose currency long name
has length 3, against a buffer of capacity 5. -/
theorem currencyName_overflow_iff_witness :
    ((GetLocaleCurrencyName okModel "en_US" false [7, 7, 7, 7, 7] 5).1 =
        U_BUFFER_OVERFLOW_ERROR ↔
      ((okModel.currName (okModel.currForLocale "en_US").2
          (if false then "en_US" else ULOC_US)).2.length : Int) ≥ 5) ∧
    (((okModel.currName (okModel.currForLocale "en_US").2
        (if false then "en_US" else ULOC_US)).2.length : Int) ≥ 5 →
      U_FAILURE (GetLocaleCurrencyName okModel "en_US" false [7, 7, 7, 7, 7] 5).1 = true) ∧
    (((okModel.currName (okModel.currForLocale "en_US").2
        (if false then "en_US" else ULOC_US)).2.length : Int) < 5 →
      U_SUCCESS (GetLocaleCurrencyName okModel "en_US" false [7, 7, 7, 7, 7] 5).1 = true ∧
      (GetLocaleCurrencyName okModel "en_US" false [7, 7, 7, 7, 7] 5).2.1 =
        (okModel.currName (okModel.currForLocale "en_US").2
            (if false then "en_US" else ULOC_US)).2 ++ [0] ++
          List.drop ((okModel.currName (okModel.currForLocale "en_US").2
            (if false then "en_US" else ULOC_US)).2.length + 1) [7, 7, 7, 7, 7]) :=
  currencyName_overflow_iff okModel "en_US" false [7, 7, 7, 7, 7] 5
    (by decide) (by decide) (by decide)

/-- C8: `GetLocaleIso639LanguageTwoLetterName` and
`GetLocaleIso3166CountryName` produce `U_MEMORY_ALLOCATION_ERROR` exactly when
the `calloc` of their temporary name buffer fails (assuming the wrapped
library itself does not report a memory failure for the underlying query),
and on every path where the allocation succeeded they free the temporary
buffer exactly once, as the final action before returning. -/
theorem isoNames_alloc_release (m : Model) (locale : String)
    (value : Buffer) (len : Int)
    (hlang : (m.langOf locale).1 ≠ U_MEMORY_ALLOCATION_ERROR)
    (hcountry : (m.countryOf locale).1 ≠ U_MEMORY_ALLOCATION_ERROR) :
    (((GetLocaleIso639LanguageTwoLetterName m locale value len).1 =
        U_MEMORY_ALLOCATION_ERROR ↔
      m.callocOk ((m.langOf locale).2.length + 1) = false) ∧
      (m.callocOk ((m.langOf locale).2.length + 1) = true →
        (GetLocaleIso639LanguageTwoLetterName m locale value len).2.2.count
            Event.evFree = 1 ∧
        (GetLocaleIso639LanguageTwoLetterName m locale value len).2.2.getLast? =
          some Event.evFree) ∧
      (m.callocOk ((m.langOf locale).2.length + 1) = false →
        (GetLocaleIso639LanguageTwoLetterName m locale value len).2.2.count
          Event.evFree = 0)) ∧
    (((GetLocaleIso3166CountryName m locale value len).1 =
        U_MEMORY_ALLOCATION_ERROR ↔
      m.callocOk ((m.countryOf locale).2.length + 1) = false) ∧
      (m.callocOk ((m.countryOf locale).2.length + 1) = true →
        (GetLocaleIso3166CountryName m locale value len).2.2.count
            Event.evFree = 1 ∧
        (GetLocaleIso3166CountryName m locale value len).2.2.getLast? =
          some Event.evFree) ∧
      (m.callocOk ((m.countryOf locale).2.length + 1) = false →
        (GetLocaleIso3166CountryName m locale value len).2.2.count
          Event.evFree = 0)) := by
  constructor
  · unfold GetLocaleIso639LanguageTwoLetterName
    by_cases hc : m.callocOk ((m.langOf locale).2.length + 1)
    · have hc2 : ¬(m.callocOk ((m.langOf locale).2.length + 1) = false) := by simp [hc]
      rw [if_neg hc2]
      by_cases hs : U_SUCCESS (m.langOf locale).1
      · rw [if_pos hs]
        refine ⟨⟨fun habs => ?_, fun habs => by simp [hc] at habs⟩,
          fun _ => ⟨by simp, by simp⟩, fun habs => by simp [hc] at habs⟩
        unfold u_charsToUChars_safe at habs
        by_cases hfit : ((m.langOf locale).2.length : Int) ≥ len
        · rw [if_pos hfit] at habs
          simp [U_MEMORY_ALLOCATION_ERROR, U_BUFFER_OVERFLOW_ERROR] at habs
        · rw [if_neg hfit] at habs
          simp [U_MEMORY_ALLOCATION_ERROR, U_ZERO_ERROR] at habs
      · rw [if_neg hs]
        refine ⟨⟨fun habs => absurd habs hlang, fun habs => by simp [hc] at habs⟩,
          fun _ => ⟨by simp, by simp⟩, fun habs => by simp [hc] at habs⟩
    · have hc2 : m.callocOk ((m.langOf locale).2.length + 1) = false := by
        simpa using hc
      rw [if_pos hc2]
      exact ⟨⟨fun _ => hc2, fun _ => rfl⟩, fun habs => by simp [hc2] at habs,
        fun _ => by simp⟩
  · unfold GetLocaleIso3166CountryName
    by_cases hc : m.callocOk ((m.countryOf locale).2.length + 1)
    · have hc2 : ¬(m.callocOk ((m.countryOf locale).2.length + 1) = false) := by simp [hc]
      rw [if_neg hc2]
      by_cases hs : U_SUCCESS (m.countryOf locale).1
      · rw [if_pos hs]
        refine ⟨⟨fun habs => ?_, fun habs => by simp [hc] at habs⟩,
          fun _ => ⟨by simp, by simp⟩, fun habs => by simp [hc] at habs⟩
        unfold u_charsToUChars_safe at habs
        by_cases hfit : ((m.countryOf locale).2.length : Int) ≥ len
        · rw [if_pos hfit] at habs
          simp [U_MEMORY_ALLOCATION_ERROR, U_BUFFER_OVERFLOW_ERROR] at habs
        · rw [if_neg hfit] at habs
          simp [U_MEMORY_ALLOCATION_ERROR, U_ZERO_ERROR] at habs
      · rw [if_neg hs]
        refine ⟨⟨fun habs => absurd habs hcountry, fun habs => by simp [hc] at habs⟩,
          fun _ => ⟨by simp, by simp⟩, fun habs => by simp [hc] at habs⟩
    · have hc2 : m.callocOk ((m.countryOf locale).2.length + 1) = false := by
        simpa using hc
      rw [if_pos hc2]
      exact ⟨⟨fun _ => hc2, fun _ => rfl⟩, fun habs => by simp [hc2] at habs,
        fun _ => by simp⟩

/-- Witness for C8: the everything-succeeds oracle (allocation succeeds) and
the failing-calloc oracle (allocation fails), at concrete arguments. -/
theorem isoNames_alloc_release_witness :
    ((((GetLocaleIso639LanguageTwoLetterName okModel "en" [5, 5, 5] 3).1 =
        U_MEMORY_ALLOCATION_ERROR ↔
      okModel.callocOk ((okModel.langOf "en").2.length + 1) = false) ∧
      (okModel.callocOk ((okModel.langOf "en").2.length + 1) = true →
        (GetLocaleIso639LanguageTwoLetterName okModel "en" [5, 5, 5] 3).2.2.count
            Event.evFree = 1 ∧
        (GetLocaleIso639LanguageTwoLetterName okModel "en" [5, 5, 5] 3).2.2.getLast? =
          some Event.evFree) ∧
      (okModel.callocOk ((okModel.langOf "en").2.length + 1) = false →
        (GetLocaleIso639LanguageTwoLetterName okModel "en" [5, 5, 5] 3).2.2.count
          Event.evFree = 0)) ∧
    (((GetLocaleIso3166CountryName okModel "en" [5, 5, 5] 3).1 =
        U_MEMORY_ALLOCATION_ERROR ↔
      okModel.callocOk ((okModel.countryOf "en").2.length + 1) = false) ∧
      (okModel.callocOk ((okModel.countryOf "en").2.length + 1) = true →
        (GetLocaleIso3166CountryName okModel "en" [5, 5, 5] 3).2.2.count
            Event.evFree = 1 ∧
        (GetLocaleIso3166CountryName okModel "en" [5, 5, 5] 3).2.2.getLast? =
          some Event.evFree) ∧
      (okModel.callocOk ((okModel.countryOf "en").2.length + 1) = false →
        (GetLocaleIso3166CountryName okModel "en" [5, 5, 5] 3).2.2.count
          Event.evFree = 0))) ∧
    ((((GetLocaleIso639LanguageTwoLetterName failCallocModel "en" [5, 5, 5] 3).1 =
        U_MEMORY_ALLOCATION_ERROR ↔
      failCallocModel.callocOk ((failCallocModel.langOf "en").2.length + 1) = false) ∧
      (failCallocModel.callocOk ((failCallocModel.langOf "en").2.length + 1) = true →
        (GetLocaleIso639LanguageTwoLetterName failCallocModel "en" [5, 5, 5] 3).2.2.count
            Event.evFree = 1 ∧
        (GetLocaleIso639LanguageTwoLetterName failCallocModel "en" [5, 5, 5] 3).2.2.getLast? =
          some Event.evFree) ∧
      (failCallocModel.callocOk ((failCallocModel.langOf "en").2.length + 1) = false →
        (GetLocaleIso639LanguageTwoLetterName failCallocModel "en" [5, 5, 5] 3).2.2.count
          Event.evFree = 0)) ∧
    (((GetLocaleIso3166CountryName failCallocModel "en" [5, 5, 5] 3).1 =
        U_MEMORY_ALLOCATION_ERROR ↔
      failCallocModel.callocOk ((failCallocModel.countryOf "en").2.length + 1) = false) ∧
      (failCallocModel.callocOk ((failCallocModel.countryOf "en").2.length + 1) = true →
        (GetLocaleIso3166CountryName failCallocModel "en" [5, 5, 5] 3).2.2.count
            Event.evFree = 1 ∧
        (GetLocaleIso3166CountryName failCallocModel "en" [5, 5, 5] 3).2.2.getLast? =
          some Event.evFree) ∧
      (failCallocModel.callocOk ((failCallocModel.countryOf "en").2.length + 1) = false →
        (GetLocaleIso3166CountryName failCallocModel "en" [5, 5, 5] 3).2.2.count
          Event.evFree = 0))) :=
  ⟨isoNames_alloc_release okModel "en" [5, 5, 5] 3 (by decide) (by decide),
    isoNames_alloc_release failCallocModel "en" [5, 5, 5] 3 (by decide) (by decide)⟩

theorem icuStringOut_congr (a b : UErrorCode) (q : UErrorCode × List UChar)
    (buf : Buffer) (off : Nat) (cap : Int)
    (ha : U_FAILURE a = false) (hb : U_FAILURE b = false) :
    icuStringOut a q buf off cap = icuStringOut b q buf off cap := by
  unfold icuStringOut
  rw [if_neg (by simp [ha])]
  conv_rhs => rw [if_neg (by simp [hb])]

theorem specDigitsGo_of_failure (m : Model) (locale : String) (L : Int)
    (syms : List Int) (i : Nat) (st : UErrorCode) (v : Buffer)
    (h : U_FAILURE st = true) :
    specDigitsGo m locale L syms i st v = (st, v) := by
  cases syms with
  | nil => rfl
  | cons s rest => simp [specDigitsGo, h]

theorem specDigitsGo_congr (m : Model) (locale : String) (L : Int)
    (s : Int) (rest : List Int) (i : Nat) (a b : UErrorCode) (v : Buffer)
    (ha : U_FAILURE a = false) (hb : U_FAILURE b = false) :
    specDigitsGo m locale L (s :: rest) i a v =
      specDigitsGo m locale L (s :: rest) i b v := by
  simp [specDigitsGo, ha, hb]

theorem runDigits_eq_spec (m : Model) (locale : String) (L : Int)
    (hopen : U_FAILURE (m.unumOpenStatus locale) = false) :
    ∀ (syms : List Int) (i : Nat) (st : UErrorCode) (value : Buffer),
      U_FAILURE st = false →
      ((runDigits m locale st value L
          ((List.enumFrom i syms).map fun p => (p.2, p.1))).1,
        (runDigits m locale st value L
          ((List.enumFrom i syms).map fun p => (p.2, p.1))).2.1) =
        specDigitsGo m locale L syms i st value := by
  intro syms
  induction syms with
  | nil =>
    intro i st value hst
    simp [runDigits, specDigitsGo, List.enumFrom]
  | cons s rest ih =>
    intro i st value hst
    have hzero : U_FAILURE U_ZERO_ERROR = false := by decide
    simp only [List.enumFrom, List.map]
    simp only [runDigits, specDigitsGo, GetDigitSymbol, hst, Bool.false_eq_true, if_false,
      GetLocaleInfoDecimalFormatSymbol, hopen]
    rw [icuStringOut_congr (m.unumOpenStatus locale) U_ZERO_ERROR
      (m.unumSymbol locale s) value i (L - (i : Int)) hopen hzero]
    by_cases hq : U_FAILURE (icuStringOut U_ZERO_ERROR (m.unumSymbol locale s)
        value i (L - (i : Int))).1
    · rw [runDigits_of_failure m locale _ _ L _ hq,
        specDigitsGo_of_failure m locale L rest (i + 1) _ _ hq]
    · exact ih (i + 1) _ _ (by simpa using hq)

theorem digitPairs_enumFrom :
    digitPairs = (List.enumFrom 0 specDigitSyms).map fun p => (p.2, p.1) := by
  decide

/-- C3: after a successful canonicalization, with the auxiliary adapter steps
(formatter opens, temporary allocation) succeeding, the status and output
buffer `GlobalizationNative_GetLocaleInfoString` produces for every field
identifier coincide with the spec-side reference `specFieldRun`: the string
written to the buffer is what the underlying library returns for that field's
equivalent query (e.g. `DecimalSeparator` yields the library's
`UNUM_DECIMAL_SEPARATOR_SYMBOL`, `EnglishDisplayName` yields the library's
display name with `ULOC_ENGLISH` as the display locale). -/
theorem getLocaleInfoString_matches_library (m : Model) (name : List UChar)
    (data : LocaleStringData) (value : Buffer) (len : Int)
    (hcanon : U_FAILURE (m.getLocale name).1 = false)
    (hunum : U_FAILURE (m.unumOpenStatus (m.getLocale name).2) = false)
    (hudat : U_FAILURE (m.udatOpenStatus (m.getLocale name).2) = false)
    (hcalloc : ∀ n, m.callocOk n = true) :
    ((GlobalizationNative_GetLocaleInfoString m name data value len).status,
      (GlobalizationNative_GetLocaleInfoString m name data value len).buf) =
      specFieldRun m (m.getLocale name).2 data value len := by
  have hzero : U_FAILURE U_ZERO_ERROR = false := by decide
  unfold GlobalizationNative_GetLocaleInfoString
  rw [if_neg (by simp [hcanon])]
  cases data with
  | LocalizedDisplayName =>
    dsimp only [specFieldRun]
    rw [icuStringOut_congr _ U_ZERO_ERROR _ _ _ _ hcanon hzero]
  | EnglishDisplayName =>
    dsimp only [specFieldRun]
    rw [icuStringOut_congr _ U_ZERO_ERROR _ _ _ _ hcanon hzero]
  | NativeDisplayName =>
    dsimp only [specFieldRun]
    rw [icuStringOut_congr _ U_ZERO_ERROR _ _ _ _ hcanon hzero]
  | LocalizedLanguageName =>
    dsimp only [specFieldRun]
    rw [icuStringOut_congr _ U_ZERO_ERROR _ _ _ _ hcanon hzero]
  | EnglishLanguageName =>
    dsimp only [specFieldRun]
    rw [icuStringOut_congr _ U_ZERO_ERROR _ _ _ _ hcanon hzero]
  | NativeLanguageName =>
    dsimp only [specFieldRun]
    rw [icuStringOut_congr _ U_ZERO_ERROR _ _ _ _ hcanon hzero]
  | EnglishCountryName =>
    dsimp only [specFieldRun]
    rw [icuStringOut_congr _ U_ZERO_ERROR _ _ _ _ hcanon hzero]
  | NativeCountryName =>
    dsimp only [specFieldRun]
    rw [icuStringOut_congr _ U_ZERO_ERROR _ _ _ _ hcanon hzero]
  | ListSeparator =>
    dsimp only [specFieldRun, GetLocaleInfoDecimalFormatSymbol]
    rw [if_neg (by simp [hunum])]
    rw [icuStringOut_congr _ U_ZERO_ERROR _ _ _ _ hunum hzero]
  | ThousandSeparator =>
    dsimp only [specFieldRun, GetLocaleInfoDecimalFormatSymbol]
    rw [if_neg (by simp [hunum])]
    rw [icuStringOut_congr _ U_ZERO_ERROR _ _ _ _ hunum hzero]
  | DecimalSeparator =>
    dsimp only [specFieldRun, GetLocaleInfoDecimalFormatSymbol]
    rw [if_neg (by simp [hunum])]
    rw [icuStringOut_congr _ U_ZERO_ERROR _ _ _ _ hunum hzero]
  | MonetarySymbol =>
    dsimp only [specFieldRun, GetLocaleInfoDecimalFormatSymbol]
    rw [if_neg (by simp [hunum])]
    rw [icuStringOut_congr _ U_ZERO_ERROR _ _ _ _ hunum hzero]
  | Iso4217MonetarySymbol =>
    dsimp only [specFieldRun, GetLocaleInfoDecimalFormatSymbol]
    rw [if_neg (by simp [hunum])]
    rw [icuStringOut_congr _ U_ZERO_ERROR _ _ _ _ hunum hzero]
  | MonetaryDecimalSeparator =>
    dsimp only [specFieldRun, GetLocaleInfoDecimalFormatSymbol]
    rw [if_neg (by simp [hunum])]
    rw [icuStringOut_congr _ U_ZERO_ERROR _ _ _ _ hunum hzero]
  | MonetaryThousandSeparator =>
    dsimp only [specFieldRun, GetLocaleInfoDecimalFormatSymbol]
    rw [if_neg (by simp [hunum])]
    rw [icuStringOut_congr _ U_ZERO_ERROR _ _ _ _ hunum hzero]
  | PositiveSign =>
    dsimp only [specFieldRun, GetLocaleInfoDecimalFormatSymbol]
    rw [if_neg (by simp [hunum])]
    rw [icuStringOut_congr _ U_ZERO_ERROR _ _ _ _ hunum hzero]
  | NegativeSign =>
    dsimp only [specFieldRun, GetLocaleInfoDecimalFormatSymbol]
    rw [if_neg (by simp [hunum])]
    rw [icuStringOut_congr _ U_ZERO_ERROR _ _ _ _ hunum hzero]
  | NaNSymbol =>
    dsimp only [specFieldRun, GetLocaleInfoDecimalFormatSymbol]
    rw [if_neg (by simp [hunum])]
    rw [icuStringOut_congr _ U_ZERO_ERROR _ _ _ _ hunum hzero]
  | PositiveInfinitySymbol =>
    dsimp only [specFieldRun, GetLocaleInfoDecimalFormatSymbol]
    rw [if_neg (by simp [hunum])]
    rw [icuStringOut_congr _ U_ZERO_ERROR _ _ _ _ hunum hzero]
  | PercentSymbol =>
    dsimp only [specFieldRun, GetLocaleInfoDecimalFormatSymbol]
    rw [if_neg (by simp [hunum])]
    rw [icuStringOut_congr _ U_ZERO_ERROR _ _ _ _ hunum hzero]
  | PerMilleSymbol =>
    dsimp only [specFieldRun, GetLocaleInfoDecimalFormatSymbol]
    rw [if_neg (by simp [hunum])]
    rw [icuStringOut_congr _ U_ZERO_ERROR _ _ _ _ hunum hzero]
  | AMDesignator =>
    dsimp only [specFieldRun, GetLocaleInfoAmPm]
    rw [if_neg (by simp [hudat])]
    rw [icuStringOut_congr _ U_ZERO_ERROR _ _ _ _ hudat hzero]
    rfl
  | PMDesignator =>
    dsimp only [specFieldRun, GetLocaleInfoAmPm]
    rw [if_neg (by simp [hudat])]
    rw [icuStringOut_congr _ U_ZERO_ERROR _ _ _ _ hudat hzero]
    rfl
  | CurrencyEnglishName =>
    dsimp only [specFieldRun, GetLocaleCurrencyName]
    have hd : (if (false : Bool) then (m.getLocale name).2 else ULOC_US) = ULOC_US := rfl
    rw [hd]
    split_ifs <;> rfl
  | CurrencyNativeName =>
    dsimp only [specFieldRun, GetLocaleCurrencyName]
    have hd : (if (true : Bool) then (m.getLocale name).2 else ULOC_US) =
      (m.getLocale name).2 := rfl
    rw [hd]
    split_ifs <;> rfl
  | Iso639LanguageTwoLetterName =>
    dsimp only [specFieldRun, GetLocaleIso639LanguageTwoLetterName]
    rw [if_neg (by simp [hcalloc])]
    split_ifs <;> rfl
  | Iso3166CountryName =>
    dsimp only [specFieldRun, GetLocaleIso3166CountryName]
    rw [if_neg (by simp [hcalloc])]
    split_ifs <;> rfl
  | Iso639LanguageThreeLetterName =>
    dsimp only [specFieldRun, GetLocaleIso639LanguageThreeLetterName]
    split_ifs <;> rfl
  | Iso3166CountryName2 =>
    dsimp only [specFieldRun, GetLocaleIso3166CountryCode]
    split_ifs <;> rfl
  | Digits =>
    dsimp only [specFieldRun]
    rw [digitPairs_enumFrom]
    rw [runDigits_eq_spec m (m.getLocale name).2 len hunum specDigitSyms 0
      (m.getLocale name).1 value hcanon]
    simp only [specDigitSyms]
    exact specDigitsGo_congr m (m.getLocale name).2 len 4
      [18, 19, 20, 21, 22, 23, 24, 25, 26] 0 (m.getLocale name).1 U_ZERO_ERROR
      value hcanon hzero
  | ParentName =>
    dsimp only [specFieldRun]
    split_ifs <;> rfl
  | UnknownField c =>
    rfl

/-- Witness for C3: the everything-succeeds oracle, querying the decimal
separator of a concrete locale into a buffer of capacity 3. -/
theorem getLocaleInfoString_matches_library_witness :
    ((GlobalizationNative_GetLocaleInfoString okModel [101] .DecimalSeparator
        [1, 2, 3] 3).status,
      (GlobalizationNative_GetLocaleInfoString okModel [101] .DecimalSeparator
        [1, 2, 3] 3).buf) =
      specFieldRun okModel (okModel.getLocale [101]).2 .DecimalSeparator [1, 2, 3] 3 :=
  getLocaleInfoString_matches_library okModel [101] .DecimalSeparator [1, 2, 3] 3
    (by decide) (by decide) (by decide) (fun _ => rfl)
